import Mathlib

/-!
Shallow embedding of the upscaledb / hamsterdb core found in this
repository:
  - src/unnamed/part_001 : the public database layer (ham_open, ham_create_ex,
    ham_find, ham_insert, ham_erase, ham_close)
  - src/unnamed/part_000 : the Db class with key_arena and record_arena
  - src/src/btree_find.c : the B-tree lookup

Machine integers are modelled as Nat; the 8-byte record pointer word
(ham_offset_t) is a Nat below 2^64 and its bytes are taken little-endian,
as the specification fixes for the on-disk format.  Bit tests on flag
words (such as flags & HAM_READ_ONLY or intflags & KEY_BLOB_SIZE_TINY)
are modelled as Boolean fields of a flags structure, one field per bit
that the embedded code tests.
-/

namespace Upscaledb

/-- The status codes of ham_status_t that the embedded code can produce
(ham_strerror in src/unnamed/part_001 lists them). -/
inductive HamStatus where
  | success
  | shortRead
  | shortWrite
  | invKeysize
  | invPagesize
  | dbAlreadyOpen
  | outOfMemory
  | invBackend
  | invParameter
  | invFileHeader
  | invFileVersion
  | keyNotFound
  | duplicateKey
  | integrityViolated
  | internalError
  | dbReadOnly
  | blobNotFound
  | prefixRequestFullkey
  deriving DecidableEq, Repr

/-- The three inline size-class bits carried in the internal key flags:
KEY_BLOB_SIZE_TINY, KEY_BLOB_SIZE_SMALL, KEY_BLOB_SIZE_EMPTY.  Each field
models one bit test intflags & KEY_BLOB_SIZE_x. -/
structure KeyIntFlags where
  tiny : Bool
  small : Bool
  empty : Bool
  deriving DecidableEq, Repr

/-- True when the internal flags carry at least one of the three inline
size-class bits. -/
def KeyIntFlags.hasInline (f : KeyIntFlags) : Bool :=
  f.tiny || f.small || f.empty

/-- The high byte of the 8-byte record pointer word, little-endian: byte
index sizeof(ham_offset_t)-1 = 7. -/
def ridHighByte (rid : Nat) : Nat :=
  rid / 2 ^ 56 % 256

/-- The first n bytes of the record pointer word in memory order
(little-endian), as memcpy(record.data, address-of record._rid, n)
copies them. -/
def ridBytes (rid n : Nat) : List Nat :=
  (List.range n).map (fun i => rid / 256 ^ i % 256)

/-- What ham_find does with a successful backend result: either the
record bytes are produced inline from the record pointer word, or
blob_read is invoked on the record pointer. -/
inductive FindOutcome where
  | inlineBytes (size : Nat) (bytes : List Nat)
  | blobRead (rid : Nat)
  deriving DecidableEq, Repr

/-- The size / noblob computation of ham_find (src/unnamed/part_001,
lines 432 to 447): TINY sets size to the high byte of the record pointer,
SMALL sets size to sizeof(ham_offset_t) = 8, EMPTY sets size to 0; each
of the three also sets noblob; otherwise size keeps the value it had and
noblob stays false. -/
def hamFindSizeNoblob (f : KeyIntFlags) (rid prevSize : Nat) : Nat × Bool :=
  if f.tiny then (ridHighByte rid, true)
  else if f.small then (8, true)
  else if f.empty then (0, true)
  else (prevSize, false)

/-- The dispatch of ham_find after a successful backend find
(src/unnamed/part_001, lines 449 to 470): when noblob is set and the
decoded size is positive the bytes are copied out of the record pointer
word, otherwise blob_read is called on the record pointer. -/
def hamFindOutcome (f : KeyIntFlags) (rid prevSize : Nat) : FindOutcome :=
  let sn := hamFindSizeNoblob f rid prevSize
  if sn.2 && decide (0 < sn.1) then
    .inlineBytes sn.1 (ridBytes rid sn.1)
  else
    .blobRead rid

/-- True when the dispatch of ham_find invokes the blob store. -/
def hamFindCallsBlob (f : KeyIntFlags) (rid prevSize : Nat) : Bool :=
  match hamFindOutcome f rid prevSize with
  | .inlineBytes _ _ => false
  | .blobRead _ => true

/-- The database-handle state that the validation code of ham_insert,
ham_erase and ham_find consults: presence of a backend, the flag bits it
tests, and the configured key size (db_get_keysize). -/
structure DbState where
  hasBackend : Bool
  readOnly : Bool
  disableVarKeylen : Bool
  inMemory : Bool
  keysize : Nat
  deriving DecidableEq, Repr

/-- Result of one call of ham_insert: the returned status and whether the
backend insert was dispatched.  ham_txn_begin and ham_txn_commit are
modelled as succeeding (their code is not part of this repository and the
claims do not concern their failure paths). -/
structure InsertResult where
  st : HamStatus
  dispatched : Bool
  deriving DecidableEq, Repr

/-- ham_insert (src/unnamed/part_001, lines 481 to 513): no backend fails
with invBackend; a read-only database fails with dbReadOnly; with
HAM_DISABLE_VAR_KEYLEN a key longer than the configured key size fails
with invKeysize; a configured key size at most sizeof(ham_offset_t) = 8
also rejects longer keys with invKeysize; otherwise the backend insert
runs and its status is returned. -/
def ham_insert (db : DbState) (keySize : Nat) (beSt : HamStatus) : InsertResult :=
  if !db.hasBackend then ⟨.invBackend, false⟩
  else if db.readOnly then ⟨.dbReadOnly, false⟩
  else if db.disableVarKeylen && decide (db.keysize < keySize) then ⟨.invKeysize, false⟩
  else if decide (db.keysize ≤ 8) && decide (db.keysize < keySize) then ⟨.invKeysize, false⟩
  else ⟨beSt, true⟩

/-- What the backend erase hands back through its out parameters: its
status, the blob id and the internal key flags of the erased slot. -/
structure EraseBackendResult where
  st : HamStatus
  blobid : Nat
  intflags : KeyIntFlags
  deriving DecidableEq, Repr

/-- Result of one call of ham_erase: the returned status, whether the
backend erase was dispatched, and whether blob_free was invoked. -/
structure EraseResult where
  st : HamStatus
  dispatched : Bool
  calledBlobFree : Bool
  deriving DecidableEq, Repr

/-- ham_erase (src/unnamed/part_001, lines 515 to 548): no backend fails
with invBackend; a read-only database fails with dbReadOnly; otherwise
the backend erase runs and, on success, blob_free is called exactly when
the erased slot carries none of the TINY, SMALL, EMPTY bits. -/
def ham_erase (db : DbState) (be : EraseBackendResult) (blobFreeSt : HamStatus) :
    EraseResult :=
  if !db.hasBackend then ⟨.invBackend, false, false⟩
  else if db.readOnly then ⟨.dbReadOnly, false, false⟩
  else if be.st = .success then
    if !be.intflags.hasInline then
      ⟨blobFreeSt, true, true⟩
    else
      ⟨.success, true, false⟩
  else ⟨be.st, true, false⟩

/-- The size validation at the top of ham_create_ex (src/unnamed/part_001,
lines 287 to 299): a zero key size is replaced by the compiled-in default,
a zero page size by HAM_DEFAULT_PAGESIZE (both defaults live in headers
outside this repository and are passed in as parameters); a nonzero page
size not divisible by 512 fails with invPagesize; then a page that holds
fewer than four keys (integer division pagesize / keysize below 4) fails
with invKeysize.  On success the effective page and key sizes are
returned. -/
def ham_create_ex_checks (defPagesize defKeysize pagesize keysize : Nat) :
    Except HamStatus (Nat × Nat) :=
  let ks := if keysize = 0 then defKeysize else keysize
  let ps := if pagesize = 0 then defPagesize else pagesize
  if pagesize ≠ 0 ∧ pagesize % 512 ≠ 0 then .error .invPagesize
  else if ps / ks < 4 then .error .invKeysize
  else .ok (ps, ks)

/-- Modelled from the spec: the page structure holding the header is not
part of this repository, so the offset of the header-page payload inside
the file comes from the on-disk format section of the specification:
bytes 0 to 7 are pad, the magic sits at file offsets 8 to 11 and the
version bytes (major, minor, revision, zero) at offsets 12 to 15.  A file
is a list of bytes; a missing byte reads as 0. -/
def fileByte (file : List Nat) (i : Nat) : Nat :=
  file.getD i 0

/-- The magic check of ham_open (src/unnamed/part_001, lines 208 to 216):
the four magic bytes must be 72, 65, 77, 0 (the characters H, A, M and a
terminating zero). -/
def magicOk (file : List Nat) : Bool :=
  decide (fileByte file 8 = 72) && decide (fileByte file 9 = 65) &&
  decide (fileByte file 10 = 77) && decide (fileByte file 11 = 0)

/-- The header validation of ham_open (src/unnamed/part_001, lines 208 to
224): first the magic is checked and a mismatch fails with
invFileHeader; only then the stored major and minor version bytes are
compared against the library version (HAM_VERSION_MAJ, HAM_VERSION_MIN,
compiled-in constants passed as parameters) and a mismatch fails with
invFileVersion. -/
def ham_open_checks (verMaj verMin : Nat) (file : List Nat) :
    Except HamStatus Unit :=
  if !magicOk file then .error .invFileHeader
  else if fileByte file 12 ≠ verMaj ∨ fileByte file 13 ≠ verMin then
    .error .invFileVersion
  else .ok ()

/-- One slot of a B-tree node as btree_find reads it: the record pointer
(key_get_ptr) and the key flags (key_get_flags). -/
structure BtEntry where
  ptr : Nat
  flags : Nat
  deriving DecidableEq, Repr

/-- A B-tree node: the leaf bit (btree_node_is_leaf) and the slots. -/
structure BtNode where
  leaf : Bool
  entries : List BtEntry
  deriving DecidableEq, Repr

/-- An in-memory page holding a B-tree node
(ham_page_get_btree_node). -/
structure BtPage where
  node : BtNode
  deriving DecidableEq, Repr

/-- What btree_traverse_tree can hand back: the child page, a null page
with no error recorded on the handle, or a null page with an error
recorded. -/
inductive TravResult where
  | next (p : BtPage)
  | nullNoError
  | nullError (st : HamStatus)

/-- The collaborators of btree_find that live outside this repository
(btree.c), kept abstract: the stored root page id, db_fetch_page applied
to the root (a null page returns the error recorded on the handle),
btree_traverse_tree for one descent step, and btree_node_search_by_key on
the leaf (an error outcome models db_get_error being set by the
search). -/
structure BtreeEnv where
  rootpage : Nat
  fetchRoot : Except HamStatus BtPage
  traverse : BtPage → TravResult
  search : BtPage → Except HamStatus Int

/-- The result btree_find leaves in the caller record structure: an error
status, or success with the record pointer and internal key flags of the
found slot. -/
inductive FindResult where
  | err (st : HamStatus)
  | found (rid : Nat) (intflags : Nat)
  deriving DecidableEq, Repr

/-- The descent loop of btree_find (src/src/btree_find.c, lines 38 to
50): starting from a non-null page, stop as soon as the node is a leaf;
otherwise take one btree_traverse_tree step; a null child with no error
recorded turns into keyNotFound, a null child with an error returns that
error.  The loop runs on fuel; none means the fuel ran out before a leaf
was reached. -/
def btfLoop (env : BtreeEnv) : Nat → BtPage → Option (Except HamStatus BtPage)
  | 0, _ => none
  | fuel + 1, p =>
    if p.node.leaf then some (.ok p)
    else
      match env.traverse p with
      | .next q => btfLoop env fuel q
      | .nullNoError => some (.error .keyNotFound)
      | .nullError st => some (.error st)

/-- btree_find (src/src/btree_find.c, lines 17 to 67): a zero root page
id returns keyNotFound at once; otherwise the root page is fetched, the
loop descends to a leaf, the leaf is searched; a search error propagates,
a negative index returns keyNotFound, and a nonnegative index stores the
record pointer and key flags of that slot.  The second component counts
the page accesses performed (the root fetch); a zero root performs
none. -/
def btree_find (env : BtreeEnv) (fuel : Nat) : Option (FindResult × Nat) :=
  if env.rootpage = 0 then some (.err .keyNotFound, 0)
  else
    match env.fetchRoot with
    | .error st => some (.err st, 1)
    | .ok p0 =>
      match btfLoop env fuel p0 with
      | none => none
      | some (.error st) => some (.err st, 1)
      | some (.ok leafPage) =>
        match env.search leafPage with
        | .error st => some (.err st, 1)
        | .ok idx =>
          if idx < 0 then some (.err .keyNotFound, 1)
          else
            let e := leafPage.node.entries.getD idx.toNat ⟨0, 0⟩
            some (.found e.ptr e.flags, 1)

/-- The handle state that ham_close consults, together with the statuses
its collaborators would return: db_is_dirty, the flag bits, db_is_open,
the presence of a backend, and the outcomes of freel_shutdown,
db_flush_all, db_write_page_to_device and the backend close. -/
structure CloseEnv where
  dirty : Bool
  inMemory : Bool
  readOnly : Bool
  isOpen : Bool
  hasBackend : Bool
  freelShutdownSt : HamStatus
  flushAllSt : HamStatus
  writeHeaderSt : HamStatus
  backendCloseSt : HamStatus
  deriving DecidableEq, Repr

/-- The observable steps of ham_close, in the order the code can perform
them. -/
inductive CloseStep where
  | copyHeader
  | freelShutdown
  | flushAll
  | writeHeader
  | backendClose
  | closeFile
  deriving DecidableEq, Repr

/-- ham_close (src/unnamed/part_001, lines 615 to 688), returning the
status and the list of steps performed: when dirty, the in-memory header
is copied onto the header page which is marked dirty; freel_shutdown
runs, a failure returning its status; db_flush_all runs, a failure
returning its status; when the database is not in-memory, is open, is
not read-only and is dirty, the header page is written through the
device, a failure returning its status; when a backend exists it is
closed, a failure returning its status; finally, when the database is
not in-memory and is open, the file handle is closed (the status of
os_close is discarded) and success is returned. -/
def ham_close (e : CloseEnv) : HamStatus × List CloseStep :=
  let s0 : List CloseStep := if e.dirty then [.copyHeader] else []
  if e.freelShutdownSt ≠ .success then (e.freelShutdownSt, s0 ++ [.freelShutdown])
  else
    let s1 := s0 ++ [.freelShutdown]
    if e.flushAllSt ≠ .success then (e.flushAllSt, s1 ++ [.flushAll])
    else
      let s2 := s1 ++ [.flushAll]
      let doWrite := !e.inMemory && e.isOpen && !e.readOnly && e.dirty
      if doWrite ∧ e.writeHeaderSt ≠ .success then
        (e.writeHeaderSt, s2 ++ [.writeHeader])
      else
        let s3 := if doWrite then s2 ++ [.writeHeader] else s2
        if e.hasBackend ∧ e.backendCloseSt ≠ .success then
          (e.backendCloseSt, s3 ++ [.backendClose])
        else
          let s4 := if e.hasBackend then s3 ++ [.backendClose] else s3
          let s5 := if !e.inMemory && e.isOpen then s4 ++ [.closeFile] else s4
          (.success, s5)

/-- Which scratch arena an operation receives. -/
inductive ArenaRef where
  | dbKey
  | dbRec
  | txnKey
  | txnRec
  deriving DecidableEq, Repr

/-- The transaction fields that arena selection reads: the TEMPORARY bit
of txn flags (isset txn flags UPS_TXN_TEMPORARY). -/
structure TxnState where
  temporary : Bool
  deriving DecidableEq, Repr

/-- Db key_arena (src/unnamed/part_000, lines 133 to 137): the
per-database key arena when the transaction pointer is null or the
transaction carries TEMPORARY, otherwise the key arena of the
transaction. -/
def key_arena (txn : Option TxnState) : ArenaRef :=
  match txn with
  | none => .dbKey
  | some t => if t.temporary then .dbKey else .txnKey

/-- Db record_arena (src/unnamed/part_000, lines 139 to 145): the
per-database record arena when the transaction pointer is null or the
transaction carries TEMPORARY, otherwise the record arena of the
transaction. -/
def record_arena (txn : Option TxnState) : ArenaRef :=
  match txn with
  | none => .dbRec
  | some t => if t.temporary then .dbRec else .txnRec

/-- A close sequence written as a list of guarded steps: a step whose
guard is false is skipped; the first executed step with a non-success
status stops the run and returns that status; otherwise the step is
recorded and the run continues. -/
def runCloseSteps : List (Bool × CloseStep × HamStatus) → HamStatus × List CloseStep
  | [] => (.success, [])
  | (g, s, st) :: rest =>
    if g then
      if st ≠ .success then (st, [s])
      else
        let r := runCloseSteps rest
        (r.1, s :: r.2)
    else runCloseSteps rest

/-- The close sequence as the amended claim words it: copy the header
when dirty; flush the freelist; flush all pages; write the header page
through the device when the database is not in-memory, is not read-only,
is still dirty, and the file handle is open; close the backend when one
exists; close the file handle when the database is not in-memory and the
handle is open (the status of closing the handle is discarded); the
first step returning a non-success status short-circuits the rest. -/
def hamCloseSpec (e : CloseEnv) : HamStatus × List CloseStep :=
  runCloseSteps
    [(e.dirty, .copyHeader, .success),
     (true, .freelShutdown, e.freelShutdownSt),
     (true, .flushAll, e.flushAllSt),
     (!e.inMemory && e.isOpen && !e.readOnly && e.dirty, .writeHeader,
        e.writeHeaderSt),
     (e.hasBackend, .backendClose, e.backendCloseSt),
     (!e.inMemory && e.isOpen, .closeFile, .success)]

/-- A handle state on which the close claim fails: dirty, file-backed,
writable, with a backend, every collaborator succeeding, but the file
handle is not open. -/
def c7Env : CloseEnv :=
  ⟨true, false, false, false, true, .success, .success, .success, .success⟩

/-- A one-node B-tree for concrete evaluation: the root page is a leaf
holding a single slot with record pointer 42 and key flags 7, and the
leaf search finds it at slot 0. -/
def c6Env : BtreeEnv where
  rootpage := 1
  fetchRoot := .ok ⟨⟨true, [⟨42, 7⟩]⟩⟩
  traverse := fun _ => .nullNoError
  search := fun _ => .ok 0

/-- A B-tree whose stored root page id is 0 (never populated). -/
def c9Env : BtreeEnv where
  rootpage := 0
  fetchRoot := .error .internalError
  traverse := fun _ => .nullNoError
  search := fun _ => .ok 0

/-- A read-only database handle with a backend. -/
def dbRO : DbState := ⟨true, true, false, false, 16⟩

/-- A writable database handle with a backend, HAM_DISABLE_VAR_KEYLEN
set and key size 16. -/
def dbVK : DbState := ⟨true, false, true, false, 16⟩

/-! Theorems. -/

/-- Helper: whenever the descent loop of btree_find stops with a page,
that page is a leaf. -/
theorem btfLoop_ok_leaf (env : BtreeEnv) :
    ∀ fuel p r, btfLoop env fuel p = some (.ok r) → r.node.leaf = true := by
  intro fuel
  induction fuel with
  | zero => intro p r h; simp [btfLoop] at h
  | succ n ih =>
    intro p r h
    rw [btfLoop] at h
    by_cases hl : p.node.leaf
    · simp only [hl, if_pos] at h
      cases h
      exact hl
    · simp only [hl, Bool.false_eq_true, if_false] at h
      cases htr : env.traverse p with
      | next q => rw [htr] at h; exact ih q r h
      | nullNoError => rw [htr] at h; cases h
      | nullError st => rw [htr] at h; cases h

/-- Claim C8: a key or record scratch arena request returns the
per-database arena exactly when the transaction is absent or carries the
TEMPORARY flag, and otherwise returns the arena owned by that
transaction. -/
theorem c8_arena_selection (txn : Option TxnState) :
    ((key_arena txn = .dbKey ∧ record_arena txn = .dbRec) ↔
      (txn = none ∨ ∃ t, txn = some t ∧ t.temporary = true)) ∧
    (∀ t, txn = some t → t.temporary = false →
      key_arena txn = .txnKey ∧ record_arena txn = .txnRec) := by
  cases txn with
  | none => simp [key_arena, record_arena]
  | some t =>
    cases ht : t.temporary <;>
      simp [key_arena, record_arena, ht]

/-- Claim C8 witness: a non-temporary transaction receives its own
arenas. -/
theorem c8_arena_selection_witness :
    key_arena (some ⟨false⟩) = .txnKey ∧ record_arena (some ⟨false⟩) = .txnRec :=
  (c8_arena_selection (some ⟨false⟩)).2 ⟨false⟩ rfl rfl

/-- Claim C9: with a stored root page id of 0, btree_find returns
keyNotFound for every key and performs no page fetch. -/
theorem c9_no_root_keynotfound (env : BtreeEnv) (fuel : Nat)
    (h : env.rootpage = 0) :
    btree_find env fuel = some (.err .keyNotFound, 0) := by
  simp [btree_find, h]

/-- Claim C9 witness: evaluation on the concrete empty tree. -/
theorem c9_no_root_keynotfound_witness :
    btree_find c9Env 5 = some (.err .keyNotFound, 0) :=
  c9_no_root_keynotfound c9Env 5 rfl

/-- Claim C10: with the HAM_DISABLE_VAR_KEYLEN flag clear, insert still
fails with invKeysize before any backend dispatch whenever the
configured key size is at most 8 and the supplied key is longer. -/
theorem c10_short_key_limit (db : DbState) (keySize : Nat) (beSt : HamStatus)
    (hbe : db.hasBackend = true) (hro : db.readOnly = false)
    (hvk : db.disableVarKeylen = false)
    (hks : db.keysize ≤ 8) (hlong : db.keysize < keySize) :
    ham_insert db keySize beSt = ⟨.invKeysize, false⟩ := by
  simp [ham_insert, hbe, hro, hvk, hks, hlong]

/-- Claim C10 witness: key size 8 configured, key of 9 bytes. -/
theorem c10_short_key_limit_witness :
    ham_insert ⟨true, false, false, false, 8⟩ 9 .success = ⟨.invKeysize, false⟩ :=
  c10_short_key_limit ⟨true, false, false, false, 8⟩ 9 .success rfl rfl rfl
    (by decide) (by decide)

/-- Claim C2: after a successful backend erase, blob_free runs if and
only if the erased slot carries none of TINY, SMALL, EMPTY; every inline
slot skips the blob store and every out-of-line slot frees its blob
unconditionally. -/
theorem c2_erase_blob_free_iff (db : DbState) (be : EraseBackendResult)
    (bf : HamStatus) (hbe : db.hasBackend = true) (hro : db.readOnly = false)
    (hst : be.st = .success) :
    ((ham_erase db be bf).calledBlobFree = true ↔ be.intflags.hasInline = false) ∧
    (be.intflags.hasInline = true → (ham_erase db be bf).calledBlobFree = false) ∧
    (be.intflags.hasInline = false →
      (ham_erase db be bf).calledBlobFree = true ∧ (ham_erase db be bf).st = bf) := by
  cases hfl : be.intflags.hasInline <;>
    simp [ham_erase, hbe, hro, hst, hfl]

/-- Claim C2 witness: an out-of-line slot frees its blob, evaluated on a
concrete erase. -/
theorem c2_erase_blob_free_iff_witness :
    (ham_erase ⟨true, false, false, false, 16⟩
        ⟨.success, 99, ⟨false, false, false⟩⟩ .success).calledBlobFree = true :=
  (c2_erase_blob_free_iff ⟨true, false, false, false, 16⟩
      ⟨.success, 99, ⟨false, false, false⟩⟩ .success rfl rfl rfl).1.mpr rfl

/-- Claim C3: create rejects a nonzero page size that is not a multiple
of 512 with invPagesize, rejects a key size letting fewer than four keys
fit in one page with invKeysize, and in particular fails with
invPagesize at page size 1000 and with invKeysize at page size 512 and
key size 200. -/
theorem c3_create_size_checks (defPS defKS ps ks : Nat) :
    (ps ≠ 0 → ps % 512 ≠ 0 →
      ham_create_ex_checks defPS defKS ps ks = .error .invPagesize) ∧
    (ps % 512 = 0 → ps ≠ 0 → ks ≠ 0 → ps / ks < 4 →
      ham_create_ex_checks defPS defKS ps ks = .error .invKeysize) ∧
    ham_create_ex_checks defPS defKS 1000 ks = .error .invPagesize ∧
    ham_create_ex_checks defPS defKS 512 200 = .error .invKeysize := by
  refine ⟨fun h1 h2 => ?_, fun h1 h2 h3 h4 => ?_, ?_, ?_⟩
  · simp [ham_create_ex_checks, h1, h2]
  · simp [ham_create_ex_checks, h1, h2, h3, h4]
  · simp [ham_create_ex_checks]
  · simp [ham_create_ex_checks]

/-- Claim C3 witness: both concrete rejections, obtained from the claim
theorem with its hypotheses discharged. -/
theorem c3_create_size_checks_witness :
    ham_create_ex_checks 4096 21 1000 16 = .error .invPagesize ∧
    ham_create_ex_checks 4096 21 512 200 = .error .invKeysize :=
  ⟨(c3_create_size_checks 4096 21 1000 16).1 (by decide) (by decide),
   (c3_create_size_checks 4096 21 512 200).2.1 (by decide) (by decide)
     (by decide) (by decide)⟩

/-- Claim C4: open rejects a file whose magic bytes at offsets 8 to 11
differ from H, A, M, 0 with invFileHeader before looking at the version,
rejects a correct magic with a differing stored major or minor version
with invFileVersion, and accepts otherwise. -/
theorem c4_open_header_checks (verMaj verMin : Nat) (file : List Nat) :
    (magicOk file = false →
      ham_open_checks verMaj verMin file = .error .invFileHeader) ∧
    (magicOk file = true →
      (fileByte file 12 ≠ verMaj ∨ fileByte file 13 ≠ verMin) →
      ham_open_checks verMaj verMin file = .error .invFileVersion) ∧
    (magicOk file = true → fileByte file 12 = verMaj → fileByte file 13 = verMin →
      ham_open_checks verMaj verMin file = .ok ()) := by
  refine ⟨fun h => ?_, fun h hv => ?_, fun h h12 h13 => ?_⟩
  · simp [ham_open_checks, h]
  · simp [ham_open_checks, h, hv]
  · simp [ham_open_checks, h, h12, h13]

/-- Claim C4 witness: a file whose bytes at offsets 8 to 11 spell XXX
followed by zero is rejected with invFileHeader even though its version
bytes match. -/
theorem c4_open_header_checks_witness :
    ham_open_checks 1 0 [0, 0, 0, 0, 0, 0, 0, 0, 88, 88, 88, 0, 1, 0, 0, 0] =
      .error .invFileHeader :=
  (c4_open_header_checks 1 0
      [0, 0, 0, 0, 0, 0, 0, 0, 88, 88, 88, 0, 1, 0, 0, 0]).1 (by decide)

/-- Claim C5: on a read-only database both insert and erase fail with
dbReadOnly before any backend dispatch, and on a writable database with
HAM_DISABLE_VAR_KEYLEN an over-long key fails with invKeysize before any
backend dispatch. -/
theorem c5_readonly_and_varkeylen (db : DbState) (keySize : Nat)
    (beSt : HamStatus) (be : EraseBackendResult) (bf : HamStatus)
    (hbe : db.hasBackend = true) :
    (db.readOnly = true →
      ham_insert db keySize beSt = ⟨.dbReadOnly, false⟩ ∧
      ham_erase db be bf = ⟨.dbReadOnly, false, false⟩) ∧
    (db.readOnly = false → db.disableVarKeylen = true → db.keysize < keySize →
      ham_insert db keySize beSt = ⟨.invKeysize, false⟩) := by
  refine ⟨fun hro => ?_, fun hro hvk hlong => ?_⟩
  · constructor <;> simp [ham_insert, ham_erase, hbe, hro]
  · simp [ham_insert, hbe, hro, hvk, hlong]

/-- Claim C5 witness: concrete read-only insert and erase, and a
concrete over-long key under HAM_DISABLE_VAR_KEYLEN. -/
theorem c5_readonly_and_varkeylen_witness :
    ham_insert dbRO 4 .success = ⟨.dbReadOnly, false⟩ ∧
    ham_erase dbRO ⟨.success, 0, ⟨false, false, false⟩⟩ .success =
      ⟨.dbReadOnly, false, false⟩ ∧
    ham_insert dbVK 20 .success = ⟨.invKeysize, false⟩ :=
  ⟨((c5_readonly_and_varkeylen dbRO 4 .success
      ⟨.success, 0, ⟨false, false, false⟩⟩ .success rfl).1 rfl).1,
   ((c5_readonly_and_varkeylen dbRO 4 .success
      ⟨.success, 0, ⟨false, false, false⟩⟩ .success rfl).1 rfl).2,
   (c5_readonly_and_varkeylen dbVK 20 .success
      ⟨.success, 0, ⟨false, false, false⟩⟩ .success rfl).2 rfl rfl (by decide)⟩

/-- Claim C1 counterexample: a slot carrying the EMPTY inline flag makes
ham_find take the blob_read branch, so the blob store is invoked for an
inline-encoded record, contrary to the claim. -/
theorem c1_counterexample :
    KeyIntFlags.hasInline ⟨false, false, true⟩ = true ∧
    hamFindOutcome ⟨false, false, true⟩ 0 0 = .blobRead 0 ∧
    hamFindCallsBlob ⟨false, false, true⟩ 0 0 = true := by
  decide

/-- Claim C1 as amended: on a successful find the size decodes as the
claim states (TINY gives the high byte of the record pointer, SMALL
gives 8, EMPTY gives 0) and inline bytes come out of the record pointer
word, but the blob store is skipped exactly when an inline flag is
present and the decoded size is positive; in particular every
EMPTY-flagged record goes to blob_read on its record pointer. -/
theorem c1_find_decode_amended (f : KeyIntFlags) (rid prev : Nat)
    (hrid : rid < 2 ^ 64) :
    (f.tiny = true → (hamFindSizeNoblob f rid prev).1 = rid / 2 ^ 56) ∧
    (f.tiny = false → f.small = true → (hamFindSizeNoblob f rid prev).1 = 8) ∧
    (f.tiny = false → f.small = false → f.empty = true →
      (hamFindSizeNoblob f rid prev).1 = 0) ∧
    (hamFindCallsBlob f rid prev = false ↔
      (f.hasInline = true ∧ 0 < (hamFindSizeNoblob f rid prev).1)) ∧
    (∀ sz bs, hamFindOutcome f rid prev = .inlineBytes sz bs →
      sz = (hamFindSizeNoblob f rid prev).1 ∧ bs = ridBytes rid sz) ∧
    (∀ r, hamFindOutcome f rid prev = .blobRead r → r = rid) := by
  have hhigh : rid / 2 ^ 56 % 256 = rid / 2 ^ 56 := Nat.mod_eq_of_lt (by omega)
  rcases f with ⟨ft, fs, fe⟩
  cases ft <;> cases fs <;> cases fe <;>
    by_cases h0 : 0 < ridHighByte rid <;>
      simp_all [hamFindSizeNoblob, hamFindOutcome, hamFindCallsBlob,
        KeyIntFlags.hasInline, ridHighByte] <;>
    omega

/-- Claim C1 amended witness: a TINY slot with high byte 2 decodes its
size from the record pointer word. -/
theorem c1_find_decode_amended_witness :
    (hamFindSizeNoblob ⟨true, false, false⟩ (2 ^ 57) 0).1 = 2 ^ 57 / 2 ^ 56 :=
  (c1_find_decode_amended ⟨true, false, false⟩ (2 ^ 57) 0 (by norm_num)).1 rfl

/-- Claim C6: btree_find stops at a leaf; a search error on the leaf
propagates, a negative slot index gives keyNotFound, and a nonnegative
index stores the record pointer and key flags of that slot and
succeeds. -/
theorem c6_btree_find_leaf (env : BtreeEnv) (fuel : Nat) (p0 leafPage : BtPage)
    (hroot : env.rootpage ≠ 0)
    (hfetch : env.fetchRoot = .ok p0)
    (hloop : btfLoop env fuel p0 = some (.ok leafPage)) :
    leafPage.node.leaf = true ∧
    (∀ st, env.search leafPage = .error st →
      btree_find env fuel = some (.err st, 1)) ∧
    (∀ idx : Int, env.search leafPage = .ok idx → idx < 0 →
      btree_find env fuel = some (.err .keyNotFound, 1)) ∧
    (∀ idx : Int, env.search leafPage = .ok idx → 0 ≤ idx →
      btree_find env fuel =
        some (.found (leafPage.node.entries.getD idx.toNat ⟨0, 0⟩).ptr
            (leafPage.node.entries.getD idx.toNat ⟨0, 0⟩).flags, 1)) := by
  refine ⟨btfLoop_ok_leaf env fuel p0 leafPage hloop, ?_, ?_, ?_⟩
  · intro st hs
    simp [btree_find, hroot, hfetch, hloop, hs]
  · intro idx hs hneg
    simp [btree_find, hroot, hfetch, hloop, hs, hneg]
  · intro idx hs hpos
    simp [btree_find, hroot, hfetch, hloop, hs, not_lt.mpr hpos]

/-- Claim C6 witness: on the one-leaf tree the lookup returns the record
pointer 42 and key flags 7 of slot 0. -/
theorem c6_btree_find_leaf_witness :
    btree_find c6Env 1 = some (.found 42 7, 1) := by
  have h := (c6_btree_find_leaf c6Env 1 ⟨⟨true, [⟨42, 7⟩]⟩⟩
      ⟨⟨true, [⟨42, 7⟩]⟩⟩ (by decide) rfl rfl).2.2.2 0 rfl (by decide)
  simpa using h

/-- Claim C7 counterexample: on a dirty, file-backed, writable handle
whose file handle is not open, every step succeeds yet the explicit
header write is skipped, although the claim requires it whenever the
database is not in-memory, not read-only and still dirty. -/
theorem c7_close_counterexample :
    c7Env.dirty = true ∧ c7Env.inMemory = false ∧ c7Env.readOnly = false ∧
    (ham_close c7Env).1 = .success ∧
    CloseStep.writeHeader ∉ (ham_close c7Env).2 := by
  decide

/-- Claim C7 as amended: ham_close performs exactly the guarded step
sequence of hamCloseSpec, whose header write additionally requires the
file handle to be open, whose backend close runs only when a backend
exists, whose file close runs only on an open file-backed handle with
its status discarded, and where the first non-success status
short-circuits the remainder. -/
theorem c7_close_sequence_amended (e : CloseEnv) :
    ham_close e = hamCloseSpec e := by
  rcases e with ⟨d, im, ro, io, hb, f1, f2, f3, f4⟩
  cases d <;> cases im <;> cases ro <;> cases io <;> cases hb <;>
    by_cases h1 : f1 = .success <;> by_cases h2 : f2 = .success <;>
    by_cases h3 : f3 = .success <;> by_cases h4 : f4 = .success <;>
      simp_all [ham_close, hamCloseSpec, runCloseSteps]

end Upscaledb
